import Mathlib

/-!
Shallow embedding of the HR-administration app's workflow core:
the ZenHR connector (`src/lib/zenhr.ts`), the `/hr-request` route
handlers (POST / GET / PATCH of `src/app/api/hr-request/route.ts`)
and the `/attendance` POST handler, over an explicit relational state.

TypeScript `undefined`/missing JSON fields are modelled as `Option`,
and JavaScript truthiness of an optional string (`!x`, true for
`undefined` and `""`) as the predicate `falsyOpt`.  The wall clock
(`Date.now()` / `new Date()`) is an explicit `now : Nat` parameter.
-/

/-- JavaScript truthiness test `!x` on an optional string:
`undefined` (here `none`) and the empty string are falsy. -/
def falsyOpt : Option String → Bool
  | none => true
  | some s => s = ""

/-- JavaScript `String.prototype.toUpperCase()` (ASCII fragment),
written over the character list so that it evaluates by kernel
reduction. -/
def jsToUpper (s : String) : String :=
  ⟨s.data.map Char.toUpper⟩

/-- JavaScript `String.prototype.toLowerCase()` (ASCII fragment). -/
def jsToLower (s : String) : String :=
  ⟨s.data.map Char.toLower⟩

/-- A `Date` value as the app stores it: either parsed from a string
(`new Date(s)`, kept symbolically) or the current instant
(`new Date()` at clock tick `t`). -/
inductive DateVal where
  | parsed (s : String)
  | nowAt (t : Nat)
deriving DecidableEq, Repr

/-! ## ZenHR connector (`src/lib/zenhr.ts`) -/

/-- Connector configuration (`ZenHRAPI` constructor): base URL and API
key, both read from the environment with defaults `https://api.zenhr.com/v1`
and `''`. -/
structure ZenHRConfig where
  baseURL : String
  apiKey : String
deriving DecidableEq, Repr

/-- Result of a connector operation: either it would issue a network
request (`network`, recording method and endpoint) or it returns a
locally synthesized value without touching the network (`localValue`). -/
inductive ConnResult (α : Type) where
  | network (method : String) (endpoint : String)
  | localValue (v : α)
deriving DecidableEq, Repr

/-- `ZenHREmployee` record shape. -/
structure ZenHREmployee where
  id : String
  name : String
  email : String
  department : String
  position : String
  hireDate : String
  status : String
deriving DecidableEq, Repr

/-- `ZenHRAttendance` payload shape. -/
structure ZenHRAttendance where
  employeeId : String
  date : String
  checkIn : Option String
  checkOut : Option String
  status : String
deriving DecidableEq, Repr

/-- `ZenHRRequest` payload shape. -/
structure ZenHRRequest where
  id : Option String
  employeeId : String
  reqType : String
  title : String
  description : String
  startDate : Option String
  endDate : Option String
  status : Option String
deriving DecidableEq, Repr

/-- `mockEmployeeData(employeeId)`. -/
def mockEmployeeData (employeeId : String) : ZenHREmployee :=
  { id := employeeId
    name := "Employee " ++ employeeId
    email := "employee" ++ employeeId ++ "@company.com"
    department := "Engineering"
    position := "Software Developer"
    hireDate := "2023-01-15"
    status := "active" }

/-- `mockEmployeesList()`. -/
def mockEmployeesList : List ZenHREmployee :=
  [ { id := "1", name := "John Doe", email := "john.doe@company.com"
      department := "Engineering", position := "Senior Developer"
      hireDate := "2022-03-15", status := "active" }
  , { id := "2", name := "Jane Smith", email := "jane.smith@company.com"
      department := "HR", position := "HR Manager"
      hireDate := "2021-08-20", status := "active" } ]

/-- Acknowledgment returned by `mockAttendanceResponse`: the echoed
payload plus an `id` built from `Date.now()` and a timestamp from
`new Date().toISOString()`. -/
structure MockAttendanceAck where
  success : Bool
  message : String
  echoed : ZenHRAttendance
  ackId : String
  timestamp : Nat
deriving DecidableEq, Repr

/-- `mockAttendanceResponse(attendanceData)` at clock tick `now`. -/
def mockAttendanceResponse (attendanceData : ZenHRAttendance) (now : Nat) :
    MockAttendanceAck :=
  { success := true
    message := "Attendance marked successfully"
    echoed := attendanceData
    ackId := "att_" ++ toString now
    timestamp := now }

/-- Acknowledgment returned by `mockHRRequestResponse`: the echoed
payload plus an `id` built from `Date.now()`, status `pending` and a
`createdAt` timestamp. -/
structure MockHRRequestAck where
  success : Bool
  message : String
  echoed : ZenHRRequest
  ackId : String
  ackStatus : String
  createdAt : Nat
deriving DecidableEq, Repr

/-- `mockHRRequestResponse(requestData)` at clock tick `now`. -/
def mockHRRequestResponse (requestData : ZenHRRequest) (now : Nat) :
    MockHRRequestAck :=
  { success := true
    message := "HR request submitted successfully"
    echoed := requestData
    ackId := "req_" ++ toString now
    ackStatus := "pending"
    createdAt := now }

/-- `mockHRRequestsList(employeeId)`. -/
def mockHRRequestsList (employeeId : Option String) : List ZenHRRequest :=
  [ { id := some "req_1", employeeId := employeeId.getD "1"
      reqType := "leave", title := "Annual Leave Request"
      description := "Requesting 5 days annual leave"
      startDate := some "2024-02-15", endDate := some "2024-02-19"
      status := some "pending" }
  , { id := some "req_2", employeeId := employeeId.getD "1"
      reqType := "document_request", title := "Salary Certificate"
      description := "Need salary certificate for bank loan"
      startDate := none, endDate := none
      status := some "approved" } ]

/-- Acknowledgment returned by `mockUpdateHRRequestResponse`, with an
`updatedAt` timestamp from `new Date().toISOString()`. -/
structure MockUpdateAck where
  success : Bool
  message : String
  ackId : String
  ackStatus : String
  updatedAt : Nat
deriving DecidableEq, Repr

/-- `mockUpdateHRRequestResponse(requestId, status)` at clock tick `now`. -/
def mockUpdateHRRequestResponse (requestId status : String) (now : Nat) :
    MockUpdateAck :=
  { success := true
    message := "HR request status updated successfully"
    ackId := requestId
    ackStatus := status
    updatedAt := now }

/-- `ZenHRAPI.fetchEmployeeData`: mock when no API key is configured,
otherwise a GET against `/employees/{id}`. -/
def fetchEmployeeData (cfg : ZenHRConfig) (employeeId : String) :
    ConnResult ZenHREmployee :=
  if cfg.apiKey = "" then
    .localValue (mockEmployeeData employeeId)
  else
    .network "GET" (cfg.baseURL ++ "/employees/" ++ employeeId)

/-- `ZenHRAPI.fetchAllEmployees`: mock when no API key is configured,
otherwise a GET against `/companies/{id}/employees` or `/employees`. -/
def fetchAllEmployees (cfg : ZenHRConfig) (companyId : Option String) :
    ConnResult (List ZenHREmployee) :=
  if cfg.apiKey = "" then
    .localValue mockEmployeesList
  else
    .network "GET" (cfg.baseURL ++
      (match companyId with
       | some c => "/companies/" ++ c ++ "/employees"
       | none => "/employees"))

/-- `ZenHRAPI.markAttendance`: mock (stamped with the current clock)
when no API key is configured, otherwise a POST against `/attendance`. -/
def zenhrMarkAttendance (cfg : ZenHRConfig) (attendanceData : ZenHRAttendance)
    (now : Nat) : ConnResult MockAttendanceAck :=
  if cfg.apiKey = "" then
    .localValue (mockAttendanceResponse attendanceData now)
  else
    .network "POST" (cfg.baseURL ++ "/attendance")

/-- `ZenHRAPI.submitHRRequest`: mock (stamped with the current clock)
when no API key is configured, otherwise a POST against `/hr-requests`. -/
def submitHRRequest (cfg : ZenHRConfig) (requestData : ZenHRRequest)
    (now : Nat) : ConnResult MockHRRequestAck :=
  if cfg.apiKey = "" then
    .localValue (mockHRRequestResponse requestData now)
  else
    .network "POST" (cfg.baseURL ++ "/hr-requests")

/-- `ZenHRAPI.fetchHRRequests`: mock when no API key is configured,
otherwise a GET against `/hr-requests`. -/
def fetchHRRequests (cfg : ZenHRConfig) (employeeId : Option String) :
    ConnResult (List ZenHRRequest) :=
  if cfg.apiKey = "" then
    .localValue (mockHRRequestsList employeeId)
  else
    .network "GET" (cfg.baseURL ++
      (match employeeId with
       | some e => "/hr-requests?employee=" ++ e
       | none => "/hr-requests"))

/-- `ZenHRAPI.updateHRRequestStatus`: mock (stamped with the current
clock) when no API key is configured, otherwise a PATCH against
`/hr-requests/{id}`. -/
def updateHRRequestStatus (cfg : ZenHRConfig) (requestId status : String)
    (_comments : Option String) (now : Nat) : ConnResult MockUpdateAck :=
  if cfg.apiKey = "" then
    .localValue (mockUpdateHRRequestResponse requestId status now)
  else
    .network "PATCH" (cfg.baseURL ++ "/hr-requests/" ++ requestId)

/-! ## Relational state (tables touched by the workflow) -/

/-- A row of the `User` table (columns the workflow reads). -/
structure UserRow where
  id : String
  name : String
  email : String
  role : String
  companyId : Option String
  employeeId : Option String
deriving DecidableEq, Repr

/-- A row of the `HRRequest` table. -/
structure HRRequestRow where
  id : String
  reqType : String
  title : String
  description : String
  status : String
  priority : String
  startDate : Option DateVal
  endDate : Option DateVal
  documents : Option String
  comments : Option String
  createdAt : Nat
  employeeId : String
  managerId : Option String
  companyId : String
deriving DecidableEq, Repr

/-- A row of the `RequestApproval` table. -/
structure ApprovalRow where
  id : String
  status : String
  comments : Option String
  requestId : String
  approverId : String
deriving DecidableEq, Repr

/-- A row of the `Notification` table. -/
structure NotificationRow where
  id : String
  title : String
  message : String
  ntype : String
  isRead : Bool
  userId : String
deriving DecidableEq, Repr

/-- A row of the `Attendance` table (unique index on
`(employeeId, date)`, `Attendance_employeeId_date_key`). -/
structure AttendanceRow where
  id : String
  date : DateVal
  checkIn : Option DateVal
  checkOut : Option DateVal
  status : String
  notes : Option String
  location : Option String
  employeeId : String
deriving DecidableEq, Repr

/-- The local database state: the tables the workflow touches. -/
structure DB where
  users : List UserRow
  hrRequests : List HRRequestRow
  approvals : List ApprovalRow
  notifications : List NotificationRow
  attendance : List AttendanceRow
deriving DecidableEq, Repr

/-- The authenticated principal attached to the session
(`session.user` as populated by the NextAuth callbacks: `companyId`
and `employeeId` default to `''` when null in the `User` row). -/
structure SessionUser where
  id : String
  name : String
  role : String
  companyId : String
  employeeId : String
deriving DecidableEq, Repr

/-- Cause of an error caught by a route's `catch` block (all are
converted to a 500 response). -/
inductive FailCause where
  | connectorError
  | conflictError
  | notFoundError
deriving DecidableEq, Repr

/-- HTTP-level outcome of a route handler, with payload `α` on 200. -/
inductive RouteResponse (α : Type) where
  | unauthorized
  | badRequest (msg : String)
  | serverError (cause : FailCause)
  | ok (payload : α)
deriving DecidableEq, Repr

/-! ## POST /api/hr-request (submit) -/

/-- JSON body of `POST /api/hr-request`; absent fields are `none`. -/
structure SubmitBody where
  reqType : Option String
  title : Option String
  description : Option String
  startDate : Option String
  endDate : Option String
  priority : Option String
  documents : Option String
deriving DecidableEq, Repr

/-- Outcome of a submit call: the response, the database afterwards,
and whether the external connector was invoked. -/
structure SubmitOutcome where
  response : RouteResponse HRRequestRow
  db : DB
  connectorCalled : Bool
deriving DecidableEq, Repr

/-- The `findFirst` manager filter of the submit handler:
`{ companyId: employee?.companyId, role: 'MANAGER' }`.  When the
employee lookup returned nothing, `employee?.companyId` is `undefined`
and Prisma drops the `companyId` condition; when the employee exists,
the (possibly null) `companyId` is matched exactly. -/
def managerMatch (employee : Option UserRow) (m : UserRow) : Bool :=
  (match employee with
   | none => true
   | some e => m.companyId = e.companyId) && m.role = "MANAGER"

/-- `POST /api/hr-request` (`route.ts`, `POST`).  `connOk` stands for
the outcome of the awaited `zenhrAPI.submitHRRequest` call (`false`
means it threw); `freshReqId`/`freshNotifId` are the ids the store
assigns to the created rows; `now` is the clock. -/
def hrRequestPOST (db : DB) (session : Option SessionUser) (body : SubmitBody)
    (connOk : Bool) (freshReqId freshNotifId : String) (now : Nat) :
    SubmitOutcome :=
  match session with
  | none => ⟨.unauthorized, db, false⟩
  | some u =>
    if falsyOpt body.reqType || falsyOpt body.title || falsyOpt body.description
    then ⟨.badRequest "Type, title, and description are required", db, false⟩
    else
      -- the connector is called before any local write
      if !connOk then ⟨.serverError .connectorError, db, true⟩
      else
        let ty := body.reqType.getD ""
        let ti := body.title.getD ""
        let de := body.description.getD ""
        let employee := db.users.find? (fun e => e.id = u.id)
        let manager := db.users.find? (managerMatch employee)
        let hrRequest : HRRequestRow :=
          { id := freshReqId
            reqType := jsToUpper ty
            title := ti
            description := de
            status := "PENDING"      -- schema default
            priority := body.priority.getD "MEDIUM"
            startDate := body.startDate.map .parsed
            endDate := body.endDate.map .parsed
            documents := body.documents.bind
              (fun d => if d = "" then none else some d)
            comments := none
            createdAt := now
            employeeId := u.id
            managerId := manager.map (·.id)
            companyId := u.companyId }
        let db1 := { db with hrRequests := hrRequest :: db.hrRequests }
        let db2 :=
          match manager with
          | some m =>
            { db1 with notifications :=
                { id := freshNotifId
                  title := "New HR Request"
                  message := u.name ++ " has submitted a " ++ ty ++
                    " request: " ++ ti
                  ntype := "HR_REQUEST"
                  isRead := false
                  userId := m.id } :: db1.notifications }
          | none => db1
        ⟨.ok hrRequest, db2, true⟩

/-! ## GET /api/hr-request (list) -/

/-- Query parameters of `GET /api/hr-request` (`searchParams.get`
returns `null` for an absent parameter, here `none`). -/
structure ListQuery where
  status : Option String
  reqType : Option String
  employeeId : Option String
deriving DecidableEq, Repr

/-- The `whereClause` of the list handler, as a predicate on rows:
role-based scoping first, then the optional `status` and `type`
filters (compared against the uppercased parameter). -/
def listWhere (u : SessionUser) (q : ListQuery) (r : HRRequestRow) : Bool :=
  (if u.role = "EMPLOYEE" then
    r.employeeId = u.id
   else if u.role = "MANAGER" then
    (if !falsyOpt q.employeeId then r.employeeId = q.employeeId.getD ""
     else r.employeeId = u.id || r.managerId = some u.id)
   else if u.role = "ADMIN" then
    r.companyId = u.companyId &&
      (if !falsyOpt q.employeeId then r.employeeId = q.employeeId.getD ""
       else true)
   else true) &&
  (if !falsyOpt q.status then r.status = jsToUpper (q.status.getD "") else true) &&
  (if !falsyOpt q.reqType then r.reqType = jsToUpper (q.reqType.getD "") else true)

/-- `GET /api/hr-request` (`route.ts`, `GET`).  Returns the matching
rows; the `orderBy createdAt desc` ordering is not modelled (no claim
depends on result order, only on membership). -/
def hrRequestGET (db : DB) (session : Option SessionUser) (q : ListQuery) :
    RouteResponse (List HRRequestRow) :=
  match session with
  | none => .unauthorized
  | some u => .ok (db.hrRequests.filter (listWhere u q))

/-! ## PATCH /api/hr-request (updateStatus) -/

/-- JSON body of `PATCH /api/hr-request`. -/
structure PatchBody where
  requestId : Option String
  status : Option String
  comments : Option String
deriving DecidableEq, Repr

/-- Outcome of an updateStatus call. -/
structure PatchOutcome where
  response : RouteResponse HRRequestRow
  db : DB
  connectorCalled : Bool
deriving DecidableEq, Repr

/-- `PATCH /api/hr-request` (`route.ts`, `PATCH`).  `connOk` stands
for the outcome of the awaited `zenhrAPI.updateHRRequestStatus` call;
`freshApprovalId`/`freshNotifId` are the ids assigned to the created
rows.  `prisma.hRRequest.update` throws when no row has the given id
(surfacing via the catch block as a 500); an absent `comments` field
(`undefined`) leaves the stored `comments` column unchanged. -/
def hrRequestPATCH (db : DB) (session : Option SessionUser) (body : PatchBody)
    (connOk : Bool) (freshApprovalId freshNotifId : String) : PatchOutcome :=
  match session with
  | none => ⟨.unauthorized, db, false⟩
  | some u =>
    if u.role ≠ "MANAGER" && u.role ≠ "ADMIN" then
      ⟨.unauthorized, db, false⟩
    else if falsyOpt body.requestId || falsyOpt body.status then
      ⟨.badRequest "Request ID and status are required", db, false⟩
    else
      let rid := body.requestId.getD ""
      let st := body.status.getD ""
      match db.hrRequests.find? (fun r => r.id = rid) with
      | none => ⟨.serverError .notFoundError, db, false⟩
      | some r =>
        let updated := { r with
          status := jsToUpper st
          comments := match body.comments with
            | none => r.comments
            | some c => some c }
        let db1 := { db with
          hrRequests :=
            db.hrRequests.map
              (fun (x : HRRequestRow) => if x.id = rid then updated else x) }
        let db2 := { db1 with approvals :=
          { id := freshApprovalId
            status := jsToUpper st
            comments := body.comments
            requestId := rid
            approverId := u.id } :: db1.approvals }
        -- local update and approval row are written before the
        -- connector call: a connector failure leaves them in place
        if !connOk then ⟨.serverError .connectorError, db2, true⟩
        else
          let db3 := { db2 with notifications :=
            { id := freshNotifId
              title := "HR Request Update"
              message := "Your " ++ updated.reqType ++
                " request has been " ++ jsToLower st
              ntype := "HR_REQUEST"
              isRead := false
              userId := updated.employeeId } :: db2.notifications }
          ⟨.ok updated, db3, true⟩

/-! ## POST /api/attendance (markAttendance) -/

/-- JSON body of `POST /api/attendance`. -/
structure AttendanceBody where
  date : Option String
  checkIn : Option String
  checkOut : Option String
  status : Option String
  notes : Option String
  location : Option String
deriving DecidableEq, Repr

/-- Outcome of a markAttendance call. -/
structure AttendanceOutcome where
  response : RouteResponse AttendanceRow
  db : DB
  connectorCalled : Bool
deriving DecidableEq, Repr

/-- The `Attendance` row handed to `prisma.attendance.create` by the
attendance POST handler: an omitted `checkIn` becomes `new Date()`
(the current instant), an omitted `checkOut` becomes null, an absent
or empty `status` defaults to `PRESENT`. -/
def attendanceRowFor (u : SessionUser) (body : AttendanceBody)
    (freshId : String) (now : Nat) : AttendanceRow :=
  let d := body.date.getD ""
  { id := freshId
    date := .parsed d
    checkIn := some (match body.checkIn with
      | some ci => .parsed (d ++ "T" ++ ci)
      | none => .nowAt now)
    checkOut := body.checkOut.map (fun co => .parsed (d ++ "T" ++ co))
    status := if falsyOpt body.status then "PRESENT"
              else body.status.getD ""
    notes := body.notes
    location := body.location
    employeeId := u.id }

/-- `POST /api/attendance` (attendance route, `POST`).  The connector
is called first (`connOk` its outcome); then
`prisma.attendance.create` either inserts the row or throws a
uniqueness-conflict error (`Attendance_employeeId_date_key` on
`(employeeId, date)`), which the catch block converts to a 500. -/
def attendancePOST (db : DB) (session : Option SessionUser)
    (body : AttendanceBody) (connOk : Bool) (freshId : String) (now : Nat) :
    AttendanceOutcome :=
  match session with
  | none => ⟨.unauthorized, db, false⟩
  | some u =>
    if falsyOpt body.date then ⟨.badRequest "Date is required", db, false⟩
    else
      if !connOk then ⟨.serverError .connectorError, db, true⟩
      else
        let row := attendanceRowFor u body freshId now
        if db.attendance.any
            (fun a => a.employeeId = row.employeeId && a.date = row.date) then
          ⟨.serverError .conflictError, db, true⟩
        else
          ⟨.ok row, { db with attendance := row :: db.attendance }, true⟩

/-! ## Fixtures used by witnesses -/

/-- Sample `User` row: an employee of company `c1`. -/
def empRow : UserRow :=
  { id := "u1", name := "Alice", email := "alice@x.com"
    role := "EMPLOYEE", companyId := some "c1", employeeId := some "E1" }

/-- Sample `User` row: a manager of company `c1`. -/
def mgrRow : UserRow :=
  { id := "m1", name := "Mona", email := "mona@x.com"
    role := "MANAGER", companyId := some "c1", employeeId := some "M1" }

/-- Sample session principal: the employee `u1`. -/
def sessEmp : SessionUser :=
  { id := "u1", name := "Alice", role := "EMPLOYEE"
    companyId := "c1", employeeId := "E1" }

/-- Sample session principal: the manager `m1`. -/
def sessMgr : SessionUser :=
  { id := "m1", name := "Mona", role := "MANAGER"
    companyId := "c1", employeeId := "M1" }

/-- Sample database: the two users, no other rows. -/
def db0 : DB :=
  { users := [empRow, mgrRow], hrRequests := [], approvals := []
    notifications := [], attendance := [] }

/-- Sample valid submit body. -/
def body0 : SubmitBody :=
  { reqType := some "leave", title := some "Annual Leave"
    description := some "5 days", startDate := none, endDate := none
    priority := none, documents := none }

/-! ## C1 -/

/-- C1: when the external connector call fails (`submitHRRequest`
throws, modelled by `connOk = false`), a submit call leaves the
database untouched — in particular no `HRRequest` row and no
`Notification` row is created, because the connector call precedes
every local write. -/
theorem submit_connector_failure_creates_no_rows
    (db : DB) (session : Option SessionUser) (body : SubmitBody)
    (freshReqId freshNotifId : String) (now : Nat) :
    (hrRequestPOST db session body false freshReqId freshNotifId now).db = db := by
  unfold hrRequestPOST
  cases session with
  | none => rfl
  | some u => dsimp only; split <;> rfl

/-! ## C7 -/

/-- C7: a submit call in which `type`, `title` or `description` is
absent fails with the validation error (400), creates no rows (the
database is unchanged) and never invokes the connector. -/
theorem submit_missing_field_validation
    (db : DB) (u : SessionUser) (body : SubmitBody) (connOk : Bool)
    (freshReqId freshNotifId : String) (now : Nat)
    (hmiss : body.reqType = none ∨ body.title = none ∨ body.description = none) :
    hrRequestPOST db (some u) body connOk freshReqId freshNotifId now =
      ⟨.badRequest "Type, title, and description are required", db, false⟩ := by
  unfold hrRequestPOST
  have h : (falsyOpt body.reqType || falsyOpt body.title ||
      falsyOpt body.description) = true := by
    rcases hmiss with h | h | h <;> simp [h, falsyOpt]
  simp [h]

/-- Witness for C7: a submission missing its `title`. -/
theorem submit_missing_field_validation_witness :
    hrRequestPOST db0 (some sessEmp)
      { body0 with title := none } true "r1" "n1" 0 =
      ⟨.badRequest "Type, title, and description are required", db0, false⟩ :=
  submit_missing_field_validation db0 sessEmp { body0 with title := none }
    true "r1" "n1" 0 (Or.inr (Or.inl rfl))

/-! ## C3 -/

/-- C3: a principal whose role is neither `MANAGER` nor `ADMIN` (in
particular an `EMPLOYEE`) calling updateStatus is rejected with the
authorization failure (401) and no local state — `HRRequest`,
`RequestApproval` or `Notification` — changes, and the connector is
never invoked. -/
theorem updateStatus_rejects_non_manager
    (db : DB) (u : SessionUser) (body : PatchBody) (connOk : Bool)
    (freshApprovalId freshNotifId : String)
    (h1 : u.role ≠ "MANAGER") (h2 : u.role ≠ "ADMIN") :
    hrRequestPATCH db (some u) body connOk freshApprovalId freshNotifId =
      ⟨.unauthorized, db, false⟩ := by
  unfold hrRequestPATCH
  simp [h1, h2]

/-- Witness for C3: the employee principal is rejected. -/
theorem updateStatus_rejects_non_manager_witness :
    hrRequestPATCH db0 (some sessEmp)
      ⟨some "r1", some "approved", none⟩ true "a1" "n1" =
      ⟨.unauthorized, db0, false⟩ :=
  updateStatus_rejects_non_manager db0 sessEmp
    ⟨some "r1", some "approved", none⟩ true "a1" "n1"
    (by decide) (by decide)

/-! ## C8 -/

/-- Sample attendance payload for the connector. -/
def attSample : ZenHRAttendance :=
  { employeeId := "E1", date := "2024-02-15"
    checkIn := some "09:00", checkOut := none, status := "present" }

/-- C8 (amended): with no API key configured, every connector
operation returns a locally synthesized placeholder and never issues
a network request; the placeholder is a function of the operation's
inputs alone for the three fetch operations, and of the inputs plus
the current clock for `markAttendance`, `submitHRRequest` and
`updateHRRequestStatus`, whose acknowledgments are stamped with
`Date.now()` / `new Date()`. -/
theorem connector_no_key_local_fallback
    (cfg : ZenHRConfig) (hkey : cfg.apiKey = "")
    (eid : String) (cid : Option String) (att : ZenHRAttendance)
    (req : ZenHRRequest) (fid : Option String) (rid st : String)
    (cm : Option String) (now : Nat) :
    fetchEmployeeData cfg eid = .localValue (mockEmployeeData eid) ∧
    fetchAllEmployees cfg cid = .localValue mockEmployeesList ∧
    zenhrMarkAttendance cfg att now = .localValue (mockAttendanceResponse att now) ∧
    submitHRRequest cfg req now = .localValue (mockHRRequestResponse req now) ∧
    fetchHRRequests cfg fid = .localValue (mockHRRequestsList fid) ∧
    updateHRRequestStatus cfg rid st cm now =
      .localValue (mockUpdateHRRequestResponse rid st now) := by
  unfold fetchEmployeeData fetchAllEmployees zenhrMarkAttendance
    submitHRRequest fetchHRRequests updateHRRequestStatus
  simp [hkey]

/-- Witness for C8's amended theorem: the default configuration
(empty API key). -/
theorem connector_no_key_local_fallback_witness :
    fetchEmployeeData ⟨"https://api.zenhr.com/v1", ""⟩ "E1" =
      .localValue (mockEmployeeData "E1") ∧
    fetchAllEmployees ⟨"https://api.zenhr.com/v1", ""⟩ none =
      .localValue mockEmployeesList ∧
    zenhrMarkAttendance ⟨"https://api.zenhr.com/v1", ""⟩ attSample 5 =
      .localValue (mockAttendanceResponse attSample 5) ∧
    submitHRRequest ⟨"https://api.zenhr.com/v1", ""⟩
        ⟨none, "E1", "leave", "t", "d", none, none, none⟩ 5 =
      .localValue (mockHRRequestResponse
        ⟨none, "E1", "leave", "t", "d", none, none, none⟩ 5) ∧
    fetchHRRequests ⟨"https://api.zenhr.com/v1", ""⟩ none =
      .localValue (mockHRRequestsList none) ∧
    updateHRRequestStatus ⟨"https://api.zenhr.com/v1", ""⟩ "r1" "approved" none 5 =
      .localValue (mockUpdateHRRequestResponse "r1" "approved" 5) :=
  connector_no_key_local_fallback ⟨"https://api.zenhr.com/v1", ""⟩ rfl
    "E1" none attSample ⟨none, "E1", "leave", "t", "d", none, none, none⟩
    none "r1" "approved" none 5

/-- Counterexample for C8 as stated: with no API key, two
`markAttendance` runs with identical inputs but different clock
readings return different placeholder results, so the fallback is not
deterministic across runs. -/
theorem connector_no_key_not_run_deterministic :
    zenhrMarkAttendance ⟨"https://api.zenhr.com/v1", ""⟩ attSample 0 ≠
      zenhrMarkAttendance ⟨"https://api.zenhr.com/v1", ""⟩ attSample 1 := by
  decide

/-! ## C2 -/

/-- C2: every `HRRequest` row present after a submit call either
already existed or carries the submitting principal's tenant:
`companyId` of each created request equals the requester's
`companyId`. -/
theorem submit_tenant_invariant
    (db : DB) (u : SessionUser) (body : SubmitBody) (connOk : Bool)
    (freshReqId freshNotifId : String) (now : Nat) (r : HRRequestRow)
    (hmem : r ∈ (hrRequestPOST db (some u) body connOk
        freshReqId freshNotifId now).db.hrRequests) :
    r ∈ db.hrRequests ∨ r.companyId = u.companyId := by
  unfold hrRequestPOST at hmem
  dsimp only at hmem
  split at hmem
  · exact Or.inl hmem
  · split at hmem
    · exact Or.inl hmem
    · split at hmem <;>
      · simp only [List.mem_cons] at hmem
        rcases hmem with h | h
        · exact Or.inr (by rw [h])
        · exact Or.inl h

/-- The request row created by the sample submission. -/
def c2row : HRRequestRow :=
  { id := "r1", reqType := "LEAVE", title := "Annual Leave"
    description := "5 days", status := "PENDING", priority := "MEDIUM"
    startDate := none, endDate := none, documents := none, comments := none
    createdAt := 0, employeeId := "u1", managerId := some "m1"
    companyId := "c1" }

/-- Witness for C2: the row created by the sample submission carries
the requester's tenant. -/
theorem submit_tenant_invariant_witness :
    c2row ∈ db0.hrRequests ∨ c2row.companyId = sessEmp.companyId :=
  submit_tenant_invariant db0 sessEmp body0 true "r1" "n1" 0 c2row (by decide)

/-! ## C4 -/

/-- C4: a successful updateStatus call (authorized role, both fields
present, request found, connector call succeeds) sets the request's
status to the uppercased new status, appends exactly one
`RequestApproval` row whose `approverId` is the acting principal, and
creates exactly one `Notification` addressed to the original
requester whose message ends in the lowercased new status. -/
theorem updateStatus_success_effects
    (db : DB) (u : SessionUser) (rid st : String) (cm : Option String)
    (freshApprovalId freshNotifId : String) (r : HRRequestRow)
    (hrole : u.role = "MANAGER" ∨ u.role = "ADMIN")
    (hrid : rid ≠ "") (hst : st ≠ "")
    (hfind : db.hrRequests.find? (fun x => x.id = rid) = some r) :
    hrRequestPATCH db (some u) ⟨some rid, some st, cm⟩ true
        freshApprovalId freshNotifId =
      ⟨.ok { r with status := jsToUpper st
                    comments := match cm with
                      | none => r.comments
                      | some c => some c }
      , { db with
          hrRequests := db.hrRequests.map
            (fun (x : HRRequestRow) => if x.id = rid then
              { r with status := jsToUpper st
                       comments := match cm with
                         | none => r.comments
                         | some c => some c } else x)
          approvals := { id := freshApprovalId, status := jsToUpper st
                         comments := cm, requestId := rid
                         approverId := u.id } :: db.approvals
          notifications := { id := freshNotifId, title := "HR Request Update"
                             message := "Your " ++ r.reqType ++
                               " request has been " ++ jsToLower st
                             ntype := "HR_REQUEST", isRead := false
                             userId := r.employeeId } :: db.notifications }
      , true⟩ := by
  unfold hrRequestPATCH
  have hrolef : (u.role ≠ "MANAGER" && u.role ≠ "ADMIN") = false := by
    rcases hrole with h | h <;> simp [h]
  have hf : (falsyOpt (some rid) || falsyOpt (some st)) = false := by
    simp [falsyOpt, hrid, hst]
  simp only [Option.getD_some, hrolef, hf, Bool.false_eq_true,
    if_false, hfind]
  rfl

/-- The pre-existing pending request used by the C4 witness. -/
def reqRow : HRRequestRow :=
  { id := "r1", reqType := "LEAVE", title := "Annual Leave"
    description := "5 days", status := "PENDING", priority := "MEDIUM"
    startDate := none, endDate := none, documents := none, comments := none
    createdAt := 0, employeeId := "u1", managerId := some "m1"
    companyId := "c1" }

/-- Database holding the single pending request `r1`. -/
def db1 : DB := { db0 with hrRequests := [reqRow] }

/-- Witness for C4: the manager approves the employee's request. -/
theorem updateStatus_success_effects_witness :
    hrRequestPATCH db1 (some sessMgr) ⟨some "r1", some "approved", some "ok"⟩
        true "a1" "n2" =
      ⟨.ok { reqRow with status := "APPROVED", comments := some "ok" }
      , { db1 with
          hrRequests :=
            [{ reqRow with status := "APPROVED", comments := some "ok" }]
          approvals :=
            [{ id := "a1", status := "APPROVED", comments := some "ok"
               requestId := "r1", approverId := "m1" }]
          notifications :=
            [{ id := "n2", title := "HR Request Update"
               message := "Your LEAVE request has been approved"
               ntype := "HR_REQUEST", isRead := false, userId := "u1" }] }
      , true⟩ := by
  have h := updateStatus_success_effects db1 sessMgr "r1" "approved"
    (some "ok") "a1" "n2" reqRow (Or.inl rfl) (by decide) (by decide)
    (by decide)
  rw [h]
  rfl

/-! ## C9 -/

/-- C9: updateStatus performs no check beyond the role test: for any
`MANAGER` or `ADMIN` principal and any existing request — no
hypothesis relates the request's `companyId` or `managerId` to the
principal — the call succeeds and the mutated row is in the store. -/
theorem updateStatus_no_tenant_check
    (db : DB) (u : SessionUser) (rid st : String) (cm : Option String)
    (freshApprovalId freshNotifId : String) (r : HRRequestRow)
    (hrole : u.role = "MANAGER" ∨ u.role = "ADMIN")
    (hrid : rid ≠ "") (hst : st ≠ "")
    (hfind : db.hrRequests.find? (fun x => x.id = rid) = some r) :
    (hrRequestPATCH db (some u) ⟨some rid, some st, cm⟩ true
        freshApprovalId freshNotifId).response =
      .ok { r with status := jsToUpper st
                   comments := match cm with
                     | none => r.comments
                     | some c => some c } ∧
    { r with status := jsToUpper st
             comments := match cm with
               | none => r.comments
               | some c => some c }
      ∈ (hrRequestPATCH db (some u) ⟨some rid, some st, cm⟩ true
          freshApprovalId freshNotifId).db.hrRequests := by
  have hridr : r.id = rid := by
    have := List.find?_some hfind
    simpa using this
  have hrolef : (u.role ≠ "MANAGER" && u.role ≠ "ADMIN") = false := by
    rcases hrole with h | h <;> simp [h]
  have hf : (falsyOpt (some rid) || falsyOpt (some st)) = false := by
    simp [falsyOpt, hrid, hst]
  unfold hrRequestPATCH
  simp only [Option.getD_some, hrolef, hf, Bool.false_eq_true,
    if_false, hfind]
  refine ⟨rfl, ?_⟩
  show _ ∈ List.map _ db.hrRequests
  refine List.mem_map.mpr ⟨r, List.mem_of_find?_eq_some hfind, ?_⟩
  simp [hridr]

/-- A request belonging to a different tenant (`c2`) and not assigned
to the acting manager, used by the C9 witness. -/
def foreignReq : HRRequestRow :=
  { reqRow with
    id := "r9", employeeId := "u9", managerId := none, companyId := "c2" }

/-- Database holding only the cross-tenant request `r9`. -/
def dbForeign : DB := { db0 with hrRequests := [foreignReq] }

/-- Witness for C9: the manager of tenant `c1` successfully mutates
the request of tenant `c2` that is not assigned to them. -/
theorem updateStatus_no_tenant_check_witness :
    (hrRequestPATCH dbForeign (some sessMgr)
        ⟨some "r9", some "rejected", none⟩ true "a2" "n3").response =
      .ok { foreignReq with status := jsToUpper "rejected"
                            comments := foreignReq.comments } ∧
    { foreignReq with status := jsToUpper "rejected"
                      comments := foreignReq.comments }
      ∈ (hrRequestPATCH dbForeign (some sessMgr)
          ⟨some "r9", some "rejected", none⟩ true "a2" "n3").db.hrRequests :=
  updateStatus_no_tenant_check dbForeign sessMgr "r9" "rejected" none
    "a2" "n3" foreignReq (Or.inl rfl) (by decide) (by decide) (by decide)

/-! ## C5 -/

/-- C5: an `EMPLOYEE` principal listing requests — under any
combination of `status`, `type` and `employeeId` filters — only ever
receives requests they authored: every returned row's `employeeId`
is the principal's id. -/
theorem list_employee_scope
    (db : DB) (u : SessionUser) (q : ListQuery)
    (rows : List HRRequestRow) (r : HRRequestRow)
    (hrole : u.role = "EMPLOYEE")
    (hok : hrRequestGET db (some u) q = .ok rows)
    (hmem : r ∈ rows) :
    r.employeeId = u.id := by
  unfold hrRequestGET at hok
  have hrows : rows = db.hrRequests.filter (listWhere u q) := by
    cases hok
    rfl
  subst hrows
  have hw : listWhere u q r = true := List.of_mem_filter hmem
  unfold listWhere at hw
  rw [hrole] at hw
  simp at hw
  exact hw.1.1

/-- Database holding requests from two different employees. -/
def dbTwo : DB :=
  { db0 with hrRequests := [reqRow, foreignReq] }

/-- Witness for C5: listing as the employee `u1` over `dbTwo` returns
only `reqRow`, and its author is `u1`. -/
theorem list_employee_scope_witness :
    reqRow.employeeId = sessEmp.id :=
  list_employee_scope dbTwo sessEmp ⟨none, none, none⟩ [reqRow] reqRow
    rfl (by decide) (by decide)

/-! ## C10 -/

/-- C10: when `checkIn` is omitted from the attendance body, the
persisted row's `checkIn` is the current server time (`new Date()`),
not null; an omitted `checkOut` is persisted as null. -/
theorem attendance_checkin_defaults
    (db : DB) (u : SessionUser) (body : AttendanceBody)
    (freshId : String) (now : Nat) (row : AttendanceRow)
    (hin : body.checkIn = none) (hout : body.checkOut = none)
    (hok : (attendancePOST db (some u) body true freshId now).response =
      .ok row) :
    row.checkIn = some (.nowAt now) ∧ row.checkOut = none := by
  unfold attendancePOST at hok
  dsimp only at hok
  split at hok
  · exact RouteResponse.noConfusion hok
  · simp only [Bool.not_true, Bool.false_eq_true, if_false] at hok
    split at hok
    · exact RouteResponse.noConfusion hok
    · have h : RouteResponse.ok (attendanceRowFor u body freshId now) =
          RouteResponse.ok row := hok
      injection h with h
      subst h
      unfold attendanceRowFor
      rw [hin, hout]
      exact ⟨rfl, rfl⟩

/-- The attendance body used by the C10 and C6 witnesses: a bare
date, no check-in or check-out. -/
def attBody : AttendanceBody :=
  { date := some "2024-02-15", checkIn := none, checkOut := none
    status := none, notes := none, location := none }

/-- Witness for C10: marking attendance with only a date stores
`new Date()` as `checkIn` and null as `checkOut`. -/
theorem attendance_checkin_defaults_witness :
    (attendanceRowFor sessEmp attBody "t1" 7).checkIn =
        some (.nowAt 7) ∧
      (attendanceRowFor sessEmp attBody "t1" 7).checkOut = none :=
  attendance_checkin_defaults db0 sessEmp attBody "t1" 7
    (attendanceRowFor sessEmp attBody "t1" 7) rfl rfl (by decide)

/-! ## C6 -/

/-- C6: two attendance marks by the same principal for the same date:
with no prior row for `(employeeId, date)`, the first call succeeds
and inserts exactly one row; the second call hits the
`(employeeId, date)` uniqueness constraint, fails with the conflict
error rather than silently overwriting, and leaves the store
unchanged, so exactly one `Attendance` row exists for that key. -/
theorem attendance_duplicate_mark_conflict
    (db : DB) (u : SessionUser) (b1 b2 : AttendanceBody)
    (id1 id2 : String) (n1 n2 : Nat)
    (hd : falsyOpt b1.date = false)
    (hdate : b2.date = b1.date)
    (hfresh : (db.attendance.any fun a =>
        a.employeeId = u.id &&
        a.date = DateVal.parsed (b1.date.getD "")) = false) :
    attendancePOST db (some u) b1 true id1 n1 =
      ⟨.ok (attendanceRowFor u b1 id1 n1)
      , { db with attendance := attendanceRowFor u b1 id1 n1 :: db.attendance }
      , true⟩ ∧
    attendancePOST
        { db with attendance := attendanceRowFor u b1 id1 n1 :: db.attendance }
        (some u) b2 true id2 n2 =
      ⟨.serverError .conflictError
      , { db with attendance := attendanceRowFor u b1 id1 n1 :: db.attendance }
      , true⟩ ∧
    ((attendanceRowFor u b1 id1 n1 :: db.attendance).countP fun a =>
        a.employeeId = u.id &&
        a.date = DateVal.parsed (b1.date.getD "")) = 1 := by
  have h1 : attendancePOST db (some u) b1 true id1 n1 =
      ⟨.ok (attendanceRowFor u b1 id1 n1)
      , { db with attendance := attendanceRowFor u b1 id1 n1 :: db.attendance }
      , true⟩ := by
    have hfresh' : (db.attendance.any fun a =>
        a.employeeId = (attendanceRowFor u b1 id1 n1).employeeId &&
        a.date = (attendanceRowFor u b1 id1 n1).date) = false := hfresh
    unfold attendancePOST
    dsimp only
    rw [hd, hfresh']
    simp
  have h2 : attendancePOST
      { db with attendance := attendanceRowFor u b1 id1 n1 :: db.attendance }
      (some u) b2 true id2 n2 =
      ⟨.serverError .conflictError
      , { db with attendance := attendanceRowFor u b1 id1 n1 :: db.attendance }
      , true⟩ := by
    have hd2 : falsyOpt b2.date = false := by rw [hdate]; exact hd
    have hany : ((attendanceRowFor u b1 id1 n1 :: db.attendance).any fun a =>
        a.employeeId = (attendanceRowFor u b2 id2 n2).employeeId &&
        a.date = (attendanceRowFor u b2 id2 n2).date) = true := by
      have e1 : (attendanceRowFor u b1 id1 n1).employeeId =
          (attendanceRowFor u b2 id2 n2).employeeId := rfl
      have e2 : (attendanceRowFor u b1 id1 n1).date =
          (attendanceRowFor u b2 id2 n2).date := by
        show DateVal.parsed (b1.date.getD "") = DateVal.parsed (b2.date.getD "")
        rw [hdate]
      refine List.any_eq_true.mpr ⟨attendanceRowFor u b1 id1 n1,
        List.mem_cons_self _ _, ?_⟩
      simp [e1, e2]
    unfold attendancePOST
    dsimp only
    rw [hd2, hany]
    simp
  have hz : (db.attendance.countP fun a =>
      a.employeeId = u.id &&
      a.date = DateVal.parsed (b1.date.getD "")) = 0 := by
    rw [List.countP_eq_zero]
    intro a ha hp
    have : (db.attendance.any fun a =>
        a.employeeId = u.id &&
        a.date = DateVal.parsed (b1.date.getD "")) = true :=
      List.any_eq_true.mpr ⟨a, ha, hp⟩
    rw [hfresh] at this
    exact Bool.false_ne_true this
  have h3 : ((attendanceRowFor u b1 id1 n1 :: db.attendance).countP fun a =>
      a.employeeId = u.id &&
      a.date = DateVal.parsed (b1.date.getD "")) = 1 := by
    rw [List.countP_cons, hz]
    have hp1 : (attendanceRowFor u b1 id1 n1).employeeId = u.id := rfl
    have hp2 : (attendanceRowFor u b1 id1 n1).date =
        DateVal.parsed (b1.date.getD "") := rfl
    simp [hp1, hp2]
  exact ⟨h1, h2, h3⟩

/-- Witness for C6: the employee marks 2024-02-15 twice against the
empty store; the first call inserts, the second conflicts. -/
theorem attendance_duplicate_mark_conflict_witness :
    attendancePOST db0 (some sessEmp) attBody true "t1" 7 =
      ⟨.ok (attendanceRowFor sessEmp attBody "t1" 7)
      , { db0 with attendance :=
            [attendanceRowFor sessEmp attBody "t1" 7] }
      , true⟩ ∧
    attendancePOST
        { db0 with attendance := [attendanceRowFor sessEmp attBody "t1" 7] }
        (some sessEmp) attBody true "t2" 8 =
      ⟨.serverError .conflictError
      , { db0 with attendance := [attendanceRowFor sessEmp attBody "t1" 7] }
      , true⟩ ∧
    (([attendanceRowFor sessEmp attBody "t1" 7] : List AttendanceRow).countP
        fun a => a.employeeId = sessEmp.id &&
          a.date = DateVal.parsed (attBody.date.getD "")) = 1 :=
  attendance_duplicate_mark_conflict db0 sessEmp attBody attBody "t1" "t2"
    7 8 (by decide) rfl (by decide)
